import Mathlib

/-!
Shallow embedding of the GreenHouseIno Arduino sketch (src/GreenHouseIno.ino).

The sketch targets an AVR (Uno-class) board: `int` is 16-bit two's
complement and `unsigned long` is 32-bit.  Machine integers are modelled
with `Int`/`Nat` plus explicit wrapping (`% 2^32`, signed 16-bit
truncation) exactly where the C types make wrapping observable.
-/

namespace GreenHouseIno

/-- `#define ON 0` — the relay is active-low, so 0 engages an actuator. -/
def ON : Int := 0

/-- `#define OFF 1`. -/
def OFF : Int := 1

/-- `const int growthDays = 10`. -/
def growthDays : Int := 10

/-- `const int reproductiveDays = 5`. -/
def reproductiveDays : Int := 5

/-- `const int GDTemperature = 20`. -/
def GDTemperature : Int := 20

/-- `const int GDHumidity = 50`. -/
def GDHumidity : Int := 50

/-- `const int RDTemperature = 15`. -/
def RDTemperature : Int := 15

/-- `const int RDHumidity = 25`. -/
def RDHumidity : Int := 25

/-- `const unsigned long fileWriteInterval = 300`. -/
def fileWriteInterval : Nat := 300

/-- The sketch's mutable globals that take part in the control logic.
`days`, the thresholds, the readings and the actuator pin states are all
C `int`s; `previousFileWrite` is `unsigned long` (modelled as a `Nat`
kept below `2^32` by the wrapping operations). -/
structure GHState where
  ciclePhase : Char
  temperatureThreshold : Int
  humidityThreshold : Int
  temperature : Int
  humidity : Int
  days : Int
  fanState : Int
  valveState : Int
  previousFileWrite : Nat
deriving Repr, DecidableEq

/-- Globals at reset: `ciclePhase = 'U'`, `fanState = valveState = OFF`,
all other globals zero-initialised (C static storage). -/
def initialState : GHState :=
  { ciclePhase := 'U', temperatureThreshold := 0, humidityThreshold := 0,
    temperature := 0, humidity := 0, days := 0,
    fanState := OFF, valveState := OFF, previousFileWrite := 0 }

/-- `changeState` (GreenHouseIno.ino:440-452): recomputes the fan and valve
pin states from the current reading and the current thresholds. -/
def changeState (s : GHState) : GHState :=
  { s with
    fanState := if s.temperature > s.temperatureThreshold then ON else OFF
    valveState := if s.humidity < s.humidityThreshold then ON else OFF }

/-- `greenHouseControl` (GreenHouseIno.ino:411-436): selects the cycle phase
and thresholds from `days`, then calls `changeState`.  (The trailing
`digitalWrite`s only mirror `fanState`/`valveState` to the pins.) -/
def greenHouseControl (s : GHState) : GHState :=
  changeState <|
    if s.days < growthDays then
      { s with ciclePhase := 'G', temperatureThreshold := GDTemperature,
               humidityThreshold := GDHumidity }
    else if growthDays ≤ s.days ∧ s.days < growthDays + reproductiveDays then
      { s with ciclePhase := 'R', temperatureThreshold := RDTemperature,
               humidityThreshold := RDHumidity }
    else
      { s with ciclePhase := 'E', temperatureThreshold := 99,
               humidityThreshold := 0 }

/-- Logical fan command: the fan is engaged exactly when the active-low pin
state equals `ON` (the relay inversion is presentation only, cf.
`toggleState` in the sketch). -/
def fanOn (s : GHState) : Bool := decide (s.fanState = ON)

/-- Logical valve command, engaged exactly when `valveState = ON`. -/
def valveOn (s : GHState) : Bool := decide (s.valveState = ON)

/-- `toggleState` (GreenHouseIno.ino:476-481): maps the active-low pin state
to the 1/0 digit shown on the LCD and in the log. -/
def toggleState (pinState : Int) : Int := if pinState = ON then 1 else 0

/-- A reading delivered by the environment sensor.  The DHT driver can fail;
`valid` models its failure indication.  The sketch itself stores only the
two `int` values (`temperature = dht.readTemperature()` etc.) and never
inspects validity. -/
structure Reading where
  valid : Bool
  temperature : Int
  humidity : Int
deriving Repr, DecidableEq

/-- Sensor branch of `loop` (GreenHouseIno.ino:278-289): the numeric fields
of the reading are stored into the globals and `greenHouseControl` runs —
unconditionally, whatever `valid` says. -/
def applyReading (r : Reading) (s : GHState) : GHState :=
  greenHouseControl { s with temperature := r.temperature, humidity := r.humidity }

/-- `2^32`, the modulus of AVR `unsigned long`. -/
def U32 : Nat := 4294967296

/-- 32-bit unsigned subtraction `a - b` (wraps modulo `2^32`). -/
def usub32 (a b : Nat) : Nat := (U32 + a - b) % U32

/-- Assignment of an `unsigned long` value to a C `int` on AVR: truncate to
16 bits and reinterpret as two's complement. -/
def toInt16 (n : Nat) : Int :=
  let m := n % 65536
  if m < 32768 then (m : Int) else (m : Int) - 65536

/-- `unsigned long currentSecond = now.unixtime() - start.unixtime()`
(GreenHouseIno.ino:256): elapsed seconds by 32-bit unsigned subtraction. -/
def currentSecondOf (now start : Nat) : Nat := usub32 now start

/-- `days = currentSecond / 86400` (GreenHouseIno.ino:261): unsigned 32-bit
division, then assignment into the 16-bit `int days`. -/
def daysOf (now start : Nat) : Int := toInt16 (currentSecondOf now start / 86400)

/-- One control tick at clock value `now` for a cycle started at `start`:
the time-update branch stores `days`, the sensor branch then runs
`greenHouseControl` (readings unchanged here). -/
def controlTick (now start : Nat) (s : GHState) : GHState :=
  greenHouseControl { s with days := daysOf now start }

/-- Rank of a phase letter in the progression G → R → E. -/
def phaseRank (c : Char) : Nat := if c = 'G' then 0 else if c = 'R' then 1 else 2

/-- Guard of the periodic file-write branch
(`currentSecond - previousFileWrite >= fileWriteInterval`,
GreenHouseIno.ino:308). -/
def fileWriteFires (currentSecond prev : Nat) : Bool :=
  decide (fileWriteInterval ≤ usub32 currentSecond prev)

/-- Periodic file-write branch of `loop` (GreenHouseIno.ino:308-339).
`appendOk` is whether `SD.open("datalog.txt", FILE_WRITE)` succeeded,
`sdBeginOk` whether the recovery `SD.begin(chipSelect)` succeeded.
Returns the updated state and whether an error was reported
(`errorMsg(22)`/`errorMsg(21)`). -/
def fileWriteStep (currentSecond : Nat) (appendOk sdBeginOk : Bool) (s : GHState) :
    GHState × Bool :=
  if fileWriteFires currentSecond s.previousFileWrite then
    let s1 := { s with previousFileWrite := currentSecond }
    if appendOk then (s1, false)
    else if sdBeginOk then
      ({ s1 with previousFileWrite := usub32 s1.previousFileWrite fileWriteInterval }, true)
    else (s1, true)
  else (s, false)

/-- The cycle-start timestamp as stored in a `DateTime`
(RTClib fields; the DS1307 covers years 2000-2099). -/
structure DateTime where
  year : Nat
  month : Nat
  day : Nat
  hour : Nat
  minute : Nat
  second : Nat
deriving Repr, DecidableEq

/-- Decimal digit character, as produced by Arduino `String(int)`. -/
def digitChar (d : Nat) : Char := Char.ofNat (48 + d)

/-- Decimal rendering of a non-negative `int` by Arduino `String(n)`. -/
def natToDigitList (n : Nat) : List Char :=
  if _h : n < 10 then [digitChar n]
  else natToDigitList (n / 10) ++ [digitChar (n % 10)]
decreasing_by exact Nat.div_lt_self (by omega) (by omega)

/-- `formatNumber` (GreenHouseIno.ino:465-471): prepends `'0'` when
`n < 10`.  (The sketch only ever passes non-negative date/time fields.) -/
def formatNumber (n : Nat) : List Char :=
  if n < 10 then '0' :: natToDigitList n else natToDigitList n

/-- `printTime` (GreenHouseIno.ino:455-457). -/
def printTime (dt : DateTime) : List Char :=
  formatNumber dt.hour ++ [':'] ++ formatNumber dt.minute ++ [':'] ++ formatNumber dt.second

/-- `printDate` (GreenHouseIno.ino:460-462). -/
def printDate (dt : DateTime) : List Char :=
  formatNumber dt.day ++ ['/'] ++ formatNumber dt.month ++ ['/'] ++ formatNumber dt.year

/-- The record line written to `date.txt`:
`printDate(start) + " " + printTime(start)` (GreenHouseIno.ino:222). -/
def dateRecord (dt : DateTime) : List Char := printDate dt ++ [' '] ++ printTime dt

/-- What the read-back loop at startup accumulates: `println` appended a
CRLF after the record, and the loop reads every byte of the file. -/
def dateFileContent (dt : DateTime) : List Char := dateRecord dt ++ ['\r', '\n']

/-- Whether a character is a decimal digit, as `atol` classifies it. -/
def isDigitCh (c : Char) : Bool := 48 ≤ c.toNat && c.toNat ≤ 57

/-- Digit value of a character. -/
def digitVal (c : Char) : Nat := c.toNat - 48

/-- Leading-digits accumulator of Arduino `String::toInt` (`atol`): folds
decimal digits, stopping at the first non-digit. -/
def parseDigitsAcc : List Char → Nat → Nat
  | [], acc => acc
  | c :: rest, acc => if isDigitCh c then parseDigitsAcc rest (10 * acc + digitVal c) else acc

/-- `data.substring(a, b).toInt()`: characters `[a, b)` of the record,
parsed as a decimal number.  (All substrings taken by the sketch are pure
digit runs, so the sign/whitespace handling of `atol` never engages.) -/
def substringToInt (data : List Char) (a b : Nat) : Nat :=
  parseDigitsAcc ((data.drop a).take (b - a)) 0

/-- Startup parse of `date.txt` (GreenHouseIno.ino:200-207): fixed
substring positions, then `DateTime(year, month, day, hour, minute, second)`. -/
def parseStart (data : List Char) : DateTime :=
  { year := substringToInt data 6 10, month := substringToInt data 3 5,
    day := substringToInt data 0 2, hour := substringToInt data 11 13,
    minute := substringToInt data 14 16, second := substringToInt data 17 19 }

/-- Valid cycle-start timestamps: the ranges a DS1307-backed `DateTime`
can hold. -/
def ValidDateTime (dt : DateTime) : Prop :=
  2000 ≤ dt.year ∧ dt.year ≤ 2099 ∧ 1 ≤ dt.month ∧ dt.month ≤ 12 ∧
  1 ≤ dt.day ∧ dt.day ≤ 31 ∧ dt.hour ≤ 23 ∧ dt.minute ≤ 59 ∧ dt.second ≤ 59

instance (dt : DateTime) : Decidable (ValidDateTime dt) := by
  unfold ValidDateTime; infer_instance

end GreenHouseIno

namespace GreenHouseIno

/-! ### Helper lemmas about the control functions -/

theorem fanOn_changeState (s : GHState) :
    fanOn (changeState s) = decide (s.temperature > s.temperatureThreshold) := by
  unfold fanOn changeState
  by_cases h : s.temperature > s.temperatureThreshold <;> simp [h, ON, OFF]

theorem valveOn_changeState (s : GHState) :
    valveOn (changeState s) = decide (s.humidity < s.humidityThreshold) := by
  unfold valveOn changeState
  by_cases h : s.humidity < s.humidityThreshold <;> simp [h, ON, OFF]

theorem ciclePhase_greenHouseControl (s : GHState) :
    (greenHouseControl s).ciclePhase =
      if s.days < 10 then 'G' else if s.days < 15 then 'R' else 'E' := by
  unfold greenHouseControl changeState growthDays reproductiveDays
  split_ifs <;> first | rfl | omega

theorem thresholds_greenHouseControl (s : GHState) :
    (greenHouseControl s).temperatureThreshold =
      (if s.days < 10 then 20 else if s.days < 15 then 15 else 99) ∧
    (greenHouseControl s).humidityThreshold =
      (if s.days < 10 then 50 else if s.days < 15 then 25 else 0) := by
  unfold greenHouseControl changeState growthDays reproductiveDays GDTemperature
    GDHumidity RDTemperature RDHumidity
  constructor <;> (split_ifs <;> first | rfl | omega)

theorem fanOn_greenHouseControl (s : GHState) :
    fanOn (greenHouseControl s) =
      decide (s.temperature > (greenHouseControl s).temperatureThreshold) := by
  unfold greenHouseControl
  rw [fanOn_changeState]
  split_ifs <;> rfl

theorem valveOn_greenHouseControl (s : GHState) :
    valveOn (greenHouseControl s) =
      decide (s.humidity < (greenHouseControl s).humidityThreshold) := by
  unfold greenHouseControl
  rw [valveOn_changeState]
  split_ifs <;> rfl

/-! ### Claim theorems C1-C4 -/

/-- Claim C1: for every phase configuration and every temperature/humidity
reading, `changeState` computes `fanOn = (temperature > temperatureThreshold)`
and `valveOn = (humidity < humidityThreshold)`, each independently with
strict inequality; in Growth phase with thresholds (20, 50), reading
(22, 40) yields both actuators on and reading (20, 50) yields both off. -/
theorem C1_decision_rule :
    (∀ s : GHState,
      fanOn (changeState s) = decide (s.temperature > s.temperatureThreshold) ∧
      valveOn (changeState s) = decide (s.humidity < s.humidityThreshold)) ∧
    ((applyReading ⟨true, 22, 40⟩ { initialState with days := 0 }).ciclePhase = 'G' ∧
     (applyReading ⟨true, 22, 40⟩ { initialState with days := 0 }).temperatureThreshold = 20 ∧
     (applyReading ⟨true, 22, 40⟩ { initialState with days := 0 }).humidityThreshold = 50 ∧
     fanOn (applyReading ⟨true, 22, 40⟩ { initialState with days := 0 }) = true ∧
     valveOn (applyReading ⟨true, 22, 40⟩ { initialState with days := 0 }) = true) ∧
    (fanOn (applyReading ⟨true, 20, 50⟩ { initialState with days := 0 }) = false ∧
     valveOn (applyReading ⟨true, 20, 50⟩ { initialState with days := 0 }) = false) :=
  ⟨fun s => ⟨fanOn_changeState s, valveOn_changeState s⟩, by decide, by decide⟩

/-- Claim C2: the phase lookup in `greenHouseControl` returns exactly one
phase for every day count, the three intervals partitioning the day line
with no gap or overlap: Growth while `days < growthDays`, Reproductive
while `growthDays ≤ days < growthDays + reproductiveDays`, otherwise
Finished; with `growthDays = 10` and `reproductiveDays = 5`, day 9 is
Growth, day 10 Reproductive and day 15 Finished. -/
theorem C2_phase_partition :
    growthDays = 10 ∧ reproductiveDays = 5 ∧
    (∀ (s : GHState) (d : Int),
      ((greenHouseControl { s with days := d }).ciclePhase = 'G' ↔ d < growthDays) ∧
      ((greenHouseControl { s with days := d }).ciclePhase = 'R' ↔
        growthDays ≤ d ∧ d < growthDays + reproductiveDays) ∧
      ((greenHouseControl { s with days := d }).ciclePhase = 'E' ↔
        growthDays + reproductiveDays ≤ d)) ∧
    (greenHouseControl { initialState with days := 9 }).ciclePhase = 'G' ∧
    (greenHouseControl { initialState with days := 10 }).ciclePhase = 'R' ∧
    (greenHouseControl { initialState with days := 15 }).ciclePhase = 'E' := by
  refine ⟨rfl, rfl, fun s d => ?_, by decide, by decide, by decide⟩
  rw [ciclePhase_greenHouseControl]
  unfold growthDays reproductiveDays
  split_ifs <;> (simp_all; try omega)

/-- Claim C3 counterexample: a valid Growth-phase reading (22, 40) engages
fan and valve, but the sketch applies the following invalid reading's
numeric payload (0, 60) unconditionally, so both actuator states change. -/
theorem C3_counterexample :
    ((⟨false, 0, 60⟩ : Reading).valid = false) ∧
    fanOn (applyReading ⟨true, 22, 40⟩ { initialState with days := 0 }) = true ∧
    fanOn (applyReading ⟨false, 0, 60⟩
      (applyReading ⟨true, 22, 40⟩ { initialState with days := 0 })) = false ∧
    valveOn (applyReading ⟨false, 0, 60⟩
      (applyReading ⟨true, 22, 40⟩ { initialState with days := 0 })) ≠
      valveOn (applyReading ⟨true, 22, 40⟩ { initialState with days := 0 }) := by
  decide

/-- Claim C3 amended: the sketch never inspects the validity flag — a
reading flagged invalid is applied exactly like a valid one, the actuator
states being recomputed from the reading's numeric values and the phase
thresholds, with no retention of the previous `fanOn`/`valveOn`. -/
theorem C3_amended (v : Bool) (t h : Int) (s : GHState) :
    applyReading ⟨v, t, h⟩ s = applyReading ⟨true, t, h⟩ s ∧
    fanOn (applyReading ⟨v, t, h⟩ s) =
      decide (t > (applyReading ⟨v, t, h⟩ s).temperatureThreshold) ∧
    valveOn (applyReading ⟨v, t, h⟩ s) =
      decide (h < (applyReading ⟨v, t, h⟩ s).humidityThreshold) := by
  refine ⟨rfl, ?_, ?_⟩
  · unfold applyReading
    rw [fanOn_greenHouseControl]
  · unfold applyReading
    rw [valveOn_greenHouseControl]

/-- Claim C4 counterexample: in the Finished phase the thresholds are the
sentinels (99, 0), so the input temperature 100 still engages the fan —
the decision is not the fixed rest command for every input. -/
theorem C4_counterexample :
    (greenHouseControl
      { initialState with days := 15, temperature := 100, humidity := 50 }).ciclePhase = 'E' ∧
    fanOn (greenHouseControl
      { initialState with days := 15, temperature := 100, humidity := 50 }) = true := by
  decide

/-- Claim C4 amended: in the Finished phase, for every temperature at most
99 and every non-negative humidity, the decision is the fixed rest command
(fan off, valve off), from any prior actuator state — so within the
sensor's range both actuators remain at rest indefinitely. -/
theorem C4_amended (s : GHState) (hd : 15 ≤ s.days) (ht : s.temperature ≤ 99)
    (hh : 0 ≤ s.humidity) :
    (greenHouseControl s).ciclePhase = 'E' ∧
    fanOn (greenHouseControl s) = false ∧
    valveOn (greenHouseControl s) = false := by
  refine ⟨?_, ?_, ?_⟩
  · rw [ciclePhase_greenHouseControl]
    split_ifs <;> first | rfl | omega
  · rw [fanOn_greenHouseControl, (thresholds_greenHouseControl s).1]
    split_ifs <;> first | omega | (simp; omega)
  · rw [valveOn_greenHouseControl, (thresholds_greenHouseControl s).2]
    split_ifs <;> first | omega | (simp; omega)

/-- Witness for C4: the Finished-phase rest command at the concrete state
(days 20, temperature 30, humidity 50). -/
theorem C4_amended_witness :
    ((15 : Int) ≤
      ({ initialState with days := 20, temperature := 30, humidity := 50 } : GHState).days) ∧
    ((greenHouseControl
        { initialState with days := 20, temperature := 30, humidity := 50 }).ciclePhase = 'E' ∧
      fanOn (greenHouseControl
        { initialState with days := 20, temperature := 30, humidity := 50 }) = false ∧
      valveOn (greenHouseControl
        { initialState with days := 20, temperature := 30, humidity := 50 }) = false) :=
  ⟨by decide,
   C4_amended { initialState with days := 20, temperature := 30, humidity := 50 }
     (by decide) (by decide) (by decide)⟩

end GreenHouseIno

namespace GreenHouseIno

/-! ### Elapsed-time arithmetic -/

theorem usub32_of_le (a b : Nat) (h1 : b ≤ a) (h2 : a < U32) : usub32 a b = a - b := by
  simp only [usub32, U32] at *
  omega

theorem daysOf_eq_div (now start : Nat) (h1 : start ≤ now) (h2 : now < U32)
    (h3 : now - start < 2831155200) :
    daysOf now start = (((now - start) / 86400 : Nat) : Int) := by
  unfold daysOf currentSecondOf toInt16
  rw [usub32_of_le now start h1 h2]
  have hq : (now - start) / 86400 < 32768 := by omega
  simp [Nat.mod_eq_of_lt (show (now - start) / 86400 < 65536 by omega), hq]

theorem daysOf_mono (start now1 now2 : Nat) (h1 : start ≤ now1) (h2 : now1 ≤ now2)
    (h3 : now2 < U32) (h4 : now2 - start < 2831155200) :
    daysOf now1 start ≤ daysOf now2 start := by
  rw [daysOf_eq_div now1 start h1 (lt_of_le_of_lt h2 h3) (by omega),
      daysOf_eq_div now2 start (le_trans h1 h2) h3 h4]
  exact_mod_cast Nat.div_le_div_right (Nat.sub_le_sub_right h2 start)

theorem phaseRank_mono_days (s1 s2 : GHState) (hd : s1.days ≤ s2.days) :
    phaseRank (greenHouseControl s1).ciclePhase ≤
      phaseRank (greenHouseControl s2).ciclePhase := by
  rw [ciclePhase_greenHouseControl, ciclePhase_greenHouseControl]
  split_ifs <;> first | decide | omega

/-! ### Claim theorems C5-C7 -/

/-- Claim C5: on every control tick with the clock at or after the cycle
start (and the cycle not overflowing the 16-bit day counter), `days` is
exactly the floor of the elapsed seconds divided by 86400. -/
theorem C5_elapsed_days_floor (now start : Nat) (h1 : start ≤ now) (h2 : now < U32)
    (h3 : now - start < 2831155200) :
    daysOf now start = ⌊((now : ℚ) - start) / 86400⌋ := by
  rw [daysOf_eq_div now start h1 h2 h3]
  have e : ((now : ℚ) - start) = (((now - start : Nat) : ℤ) : ℚ) := by
    rw [Nat.cast_sub h1]
    push_cast
    ring
  rw [e, show (86400 : ℚ) = ((86400 : ℕ) : ℚ) from by norm_cast,
      Rat.floor_intCast_div_natCast]
  omega

/-- Witness for C5 at `start = 5`, `now = 259205` (three full days). -/
theorem C5_witness :
    (5 : Nat) ≤ 259205 ∧ daysOf 259205 5 = ⌊((259205 : ℚ) - 5) / 86400⌋ :=
  ⟨by decide, C5_elapsed_days_floor 259205 5 (by decide) (by decide) (by decide)⟩

/-- Claim C6: for a fixed cycle start and clock values `now1 < now2` at or
after it (cycle within the 16-bit day range), the day count at `now2` is
at least the day count at `now1`. -/
theorem C6_elapsed_days_monotone (start now1 now2 : Nat) (h1 : start ≤ now1)
    (h2 : now1 < now2) (h3 : now2 < U32) (h4 : now2 - start < 2831155200) :
    daysOf now1 start ≤ daysOf now2 start :=
  daysOf_mono start now1 now2 h1 (le_of_lt h2) h3 h4

/-- Witness for C6 at `start = 0`, `now1 = 100000`, `now2 = 200000`. -/
theorem C6_witness :
    (100000 : Nat) < 200000 ∧ daysOf 100000 0 ≤ daysOf 200000 0 :=
  ⟨by decide, C6_elapsed_days_monotone 0 100000 200000 (by decide) (by decide)
    (by decide) (by decide)⟩

/-- Claim C7: under the order Growth → Reproductive → Finished, control
ticks with non-decreasing clock values (at or after the cycle start, cycle
within the 16-bit day range) produce non-decreasing phases — the phase
never regresses. -/
theorem C7_phase_never_regresses (s1 s2 : GHState) (start now1 now2 : Nat)
    (h1 : start ≤ now1) (h2 : now1 ≤ now2) (h3 : now2 < U32)
    (h4 : now2 - start < 2831155200) :
    phaseRank (controlTick now1 start s1).ciclePhase ≤
      phaseRank (controlTick now2 start s2).ciclePhase := by
  unfold controlTick
  exact phaseRank_mono_days _ _ (daysOf_mono start now1 now2 h1 h2 h3 h4)

/-- Witness for C7: tick at second 0 (Growth) against tick at second
950400 = day 11 (Reproductive). -/
theorem C7_witness :
    (0 : Nat) ≤ 950400 ∧
    phaseRank (controlTick 0 0 initialState).ciclePhase ≤
      phaseRank (controlTick 950400 0 initialState).ciclePhase :=
  ⟨by decide, C7_phase_never_regresses initialState initialState 0 0 950400
    (by decide) (by decide) (by decide) (by decide)⟩

end GreenHouseIno

namespace GreenHouseIno

/-! ### Decimal formatting and parsing of the date record -/

theorem natToDigitList_single (n : Nat) (h : n < 10) : natToDigitList n = [digitChar n] := by
  rw [natToDigitList]
  simp [h]

theorem natToDigitList_two (n : Nat) (h1 : 10 ≤ n) (h2 : n < 100) :
    natToDigitList n = [digitChar (n / 10), digitChar (n % 10)] := by
  rw [natToDigitList, dif_neg (by omega), natToDigitList_single (n / 10) (by omega)]
  rfl

theorem natToDigitList_three (n : Nat) (h1 : 100 ≤ n) (h2 : n < 1000) :
    natToDigitList n = [digitChar (n / 100), digitChar (n / 10 % 10), digitChar (n % 10)] := by
  rw [natToDigitList, dif_neg (by omega),
      natToDigitList_two (n / 10) (by omega) (by omega)]
  have e1 : n / 10 / 10 = n / 100 := by omega
  rw [e1]
  rfl

theorem natToDigitList_four (n : Nat) (h1 : 1000 ≤ n) (h2 : n < 10000) :
    natToDigitList n = [digitChar (n / 1000), digitChar (n / 100 % 10),
      digitChar (n / 10 % 10), digitChar (n % 10)] := by
  rw [natToDigitList, dif_neg (by omega),
      natToDigitList_three (n / 10) (by omega) (by omega)]
  have e1 : n / 10 / 100 = n / 1000 := by omega
  have e2 : n / 10 / 10 % 10 = n / 100 % 10 := by omega
  rw [e1, e2]
  rfl

theorem formatNumber_two (n : Nat) (h : n < 100) :
    formatNumber n = [digitChar (n / 10), digitChar (n % 10)] := by
  unfold formatNumber
  by_cases h10 : n < 10
  · rw [if_pos h10, natToDigitList_single n h10,
        show n / 10 = 0 from by omega, show n % 10 = n from by omega]
    rfl
  · rw [if_neg h10, natToDigitList_two n (by omega) h]

theorem digitVal_digitChar (d : Nat) (h : d < 10) : digitVal (digitChar d) = d := by
  interval_cases d <;> rfl

theorem isDigitCh_digitChar (d : Nat) (h : d < 10) : isDigitCh (digitChar d) = true := by
  interval_cases d <;> rfl

theorem parseDigitsAcc_two (a b acc : Nat) (ha : a < 10) (hb : b < 10) :
    parseDigitsAcc [digitChar a, digitChar b] acc = 100 * acc + 10 * a + b := by
  unfold parseDigitsAcc
  rw [if_pos (isDigitCh_digitChar a ha)]
  unfold parseDigitsAcc
  rw [if_pos (isDigitCh_digitChar b hb)]
  unfold parseDigitsAcc
  rw [digitVal_digitChar a ha, digitVal_digitChar b hb]
  ring

theorem parseDigitsAcc_four (a b c d : Nat) (ha : a < 10) (hb : b < 10) (hc : c < 10)
    (hd : d < 10) :
    parseDigitsAcc [digitChar a, digitChar b, digitChar c, digitChar d] 0 =
      1000 * a + 100 * b + 10 * c + d := by
  unfold parseDigitsAcc
  rw [if_pos (isDigitCh_digitChar a ha)]
  unfold parseDigitsAcc
  rw [if_pos (isDigitCh_digitChar b hb)]
  rw [digitVal_digitChar a ha, digitVal_digitChar b hb]
  rw [parseDigitsAcc_two c d _ hc hd]
  ring

/-- Claim C8: the persisted cycle-start record round-trips — writing a
valid timestamp in DD/MM/YYYY HH:MM:SS format (two-digit zero-padded
fields) and re-parsing it at the fixed substring positions recovers the
original timestamp. -/
theorem C8_roundtrip (dt : DateTime) (hv : ValidDateTime dt) :
    parseStart (dateFileContent dt) = dt := by
  obtain ⟨y, mo, d, hr, mi, se⟩ := dt
  unfold ValidDateTime at hv
  dsimp only at hv
  obtain ⟨hy1, hy2, hm1, hm2, hd1, hd2, hh, hmin, hs⟩ := hv
  have hrec : dateFileContent ⟨y, mo, d, hr, mi, se⟩ =
      [digitChar (d / 10), digitChar (d % 10), '/',
       digitChar (mo / 10), digitChar (mo % 10), '/',
       digitChar (y / 1000), digitChar (y / 100 % 10),
       digitChar (y / 10 % 10), digitChar (y % 10), ' ',
       digitChar (hr / 10), digitChar (hr % 10), ':',
       digitChar (mi / 10), digitChar (mi % 10), ':',
       digitChar (se / 10), digitChar (se % 10), '\r', '\n'] := by
    unfold dateFileContent dateRecord printDate printTime
    dsimp only
    rw [formatNumber_two d (by omega), formatNumber_two mo (by omega),
        formatNumber_two hr (by omega), formatNumber_two mi (by omega),
        formatNumber_two se (by omega)]
    unfold formatNumber
    rw [if_neg (by omega), natToDigitList_four y (by omega) (by omega)]
    rfl
  rw [hrec]
  show DateTime.mk
      (parseDigitsAcc [digitChar (y / 1000), digitChar (y / 100 % 10),
        digitChar (y / 10 % 10), digitChar (y % 10)] 0)
      (parseDigitsAcc [digitChar (mo / 10), digitChar (mo % 10)] 0)
      (parseDigitsAcc [digitChar (d / 10), digitChar (d % 10)] 0)
      (parseDigitsAcc [digitChar (hr / 10), digitChar (hr % 10)] 0)
      (parseDigitsAcc [digitChar (mi / 10), digitChar (mi % 10)] 0)
      (parseDigitsAcc [digitChar (se / 10), digitChar (se % 10)] 0) =
    ⟨y, mo, d, hr, mi, se⟩
  rw [parseDigitsAcc_four _ _ _ _ (by omega) (by omega) (by omega) (by omega),
      parseDigitsAcc_two _ _ _ (by omega) (by omega),
      parseDigitsAcc_two _ _ _ (by omega) (by omega),
      parseDigitsAcc_two _ _ _ (by omega) (by omega),
      parseDigitsAcc_two _ _ _ (by omega) (by omega),
      parseDigitsAcc_two _ _ _ (by omega) (by omega)]
  simp only [DateTime.mk.injEq]
  omega

/-- Witness for C8 at the timestamp 20/10/2018 07:05:59. -/
theorem C8_witness :
    ValidDateTime ⟨2018, 10, 20, 7, 5, 59⟩ ∧
    parseStart (dateFileContent ⟨2018, 10, 20, 7, 5, 59⟩) = ⟨2018, 10, 20, 7, 5, 59⟩ :=
  ⟨by decide, C8_roundtrip ⟨2018, 10, 20, 7, 5, 59⟩ (by decide)⟩

end GreenHouseIno

namespace GreenHouseIno

/-! ### Claim theorems C9-C10 -/

/-- Claim C9 counterexample: a failed append at second 1000 (with
`previousFileWrite = 300`, so the guard had fired) whose recovery
`SD.begin` also fails reports the error but leaves `previousFileWrite` at
1000, so the check does not fire on the next loop pass (second 1001) —
it waits out a full interval. -/
theorem C9_counterexample :
    (fileWriteStep 1000 false false { initialState with previousFileWrite := 300 }).2 = true ∧
    (fileWriteStep 1000 false false
      { initialState with previousFileWrite := 300 }).1.previousFileWrite = 1000 ∧
    fileWriteFires 1001 1000 = false := by
  decide

/-- Claim C9 amended: when the periodic log append fails the error is
reported and the control state (phase, actuator states, day count,
readings) is untouched; the next periodic check fires again immediately
only when the recovery `SD.begin` succeeds — when it also fails,
`previousFileWrite` stays at the current second and the check waits a
full interval again. -/
theorem C9_amended (s : GHState) (cs cs2 : Nat) (sdOk : Bool)
    (hcs : cs < U32) (hfire : fileWriteFires cs s.previousFileWrite = true)
    (hle : cs ≤ cs2) (hbound : cs2 - cs < U32 - 300) :
    (fileWriteStep cs false sdOk s).2 = true ∧
    (fileWriteStep cs false sdOk s).1.ciclePhase = s.ciclePhase ∧
    (fileWriteStep cs false sdOk s).1.fanState = s.fanState ∧
    (fileWriteStep cs false sdOk s).1.valveState = s.valveState ∧
    (fileWriteStep cs false sdOk s).1.days = s.days ∧
    (fileWriteStep cs false sdOk s).1.temperature = s.temperature ∧
    (fileWriteStep cs false sdOk s).1.humidity = s.humidity ∧
    (sdOk = true →
      fileWriteFires cs2 (fileWriteStep cs false sdOk s).1.previousFileWrite = true) ∧
    (sdOk = false → (fileWriteStep cs false sdOk s).1.previousFileWrite = cs) := by
  cases sdOk <;>
    (simp only [fileWriteStep, hfire, if_true, Bool.false_eq_true, if_false, ite_true,
      fileWriteFires, fileWriteInterval, usub32, U32] at *; simp_all; try omega)

/-- Witness for C9: failed append at second 1000 with successful recovery;
the check fires again at the same second. -/
theorem C9_witness :
    fileWriteFires 1000
      ({ initialState with previousFileWrite := 300 } : GHState).previousFileWrite = true ∧
    ((fileWriteStep 1000 false true { initialState with previousFileWrite := 300 }).2 = true ∧
     (fileWriteStep 1000 false true
       { initialState with previousFileWrite := 300 }).1.ciclePhase =
       ({ initialState with previousFileWrite := 300 } : GHState).ciclePhase ∧
     (fileWriteStep 1000 false true
       { initialState with previousFileWrite := 300 }).1.fanState =
       ({ initialState with previousFileWrite := 300 } : GHState).fanState ∧
     (fileWriteStep 1000 false true
       { initialState with previousFileWrite := 300 }).1.valveState =
       ({ initialState with previousFileWrite := 300 } : GHState).valveState ∧
     (fileWriteStep 1000 false true
       { initialState with previousFileWrite := 300 }).1.days =
       ({ initialState with previousFileWrite := 300 } : GHState).days ∧
     (fileWriteStep 1000 false true
       { initialState with previousFileWrite := 300 }).1.temperature =
       ({ initialState with previousFileWrite := 300 } : GHState).temperature ∧
     (fileWriteStep 1000 false true
       { initialState with previousFileWrite := 300 }).1.humidity =
       ({ initialState with previousFileWrite := 300 } : GHState).humidity ∧
     (true = true →
       fileWriteFires 1000
         (fileWriteStep 1000 false true
           { initialState with previousFileWrite := 300 }).1.previousFileWrite = true) ∧
     (true = false →
       (fileWriteStep 1000 false true
         { initialState with previousFileWrite := 300 }).1.previousFileWrite = 1000)) :=
  ⟨by decide,
   C9_amended { initialState with previousFileWrite := 300 } 1000 1000 true
     (by decide) (by decide) (by decide) (by decide)⟩

/-- Claim C10 counterexample: with the clock one second before the cycle
start, the 32-bit subtraction wraps to 4294967295, the day quotient 49710
truncates to the 16-bit `int` value -15826, and the controller reports
Growth — not Finished. -/
theorem C10_counterexample :
    (1539999999 : Nat) < 1540000000 ∧
    daysOf 1539999999 1540000000 = -15826 ∧
    (controlTick 1539999999 1540000000 initialState).ciclePhase = 'G' ∧
    (controlTick 1539999999 1540000000 initialState).ciclePhase ≠ 'E' := by
  decide

/-- Claim C10 amended: elapsed seconds are computed by unsigned 32-bit
subtraction, so a clock strictly earlier than the cycle start wraps the
difference modulo `2^32` to a huge value; but the day quotient is then
assigned to a 16-bit signed `int`, which is negative for any clock
set-back of at most 1463812096 seconds (about 46 years), so the
controller immediately reports the Growth phase — with no error signal —
rather than Finished. -/
theorem C10_amended (s : GHState) (start now : Nat) (h1 : now < start) (h2 : start < U32)
    (h3 : start - now ≤ 1463812096) :
    daysOf now start < 0 ∧ (controlTick now start s).ciclePhase = 'G' := by
  have hd : daysOf now start < 0 := by
    simp only [daysOf, currentSecondOf, usub32, toInt16, U32] at *
    split_ifs <;> omega
  refine ⟨hd, ?_⟩
  unfold controlTick
  rw [ciclePhase_greenHouseControl]
  have hlt : ({ s with days := daysOf now start } : GHState).days < 10 := by
    dsimp only
    omega
  rw [if_pos hlt]

/-- Witness for C10: cycle start at unixtime 1540000000, clock one second
earlier. -/
theorem C10_witness :
    (1539999999 : Nat) < 1540000000 ∧
    (daysOf 1539999999 1540000000 < 0 ∧
     (controlTick 1539999999 1540000000 initialState).ciclePhase = 'G') :=
  ⟨by decide,
   C10_amended initialState 1540000000 1539999999 (by decide) (by decide) (by decide)⟩

end GreenHouseIno
